import Mathlib

/-!
# Verification of the request-authentication gate (`src/app/auth.py`)

A shallow embedding of the API-key authentication module: the in-memory key
registry (`API_KEYS` / `get_api_key_info`), HMAC-SHA256 request-signature
validation (`validate_signature`, with SHA-256 and HMAC implemented from the
primary sources so nothing cryptographic is stubbed), the per-key
sliding-window rate limiter (`check_rate_limit`), and the decorator
`require_api_key` that composes them into a single authorization decision.

Times are embedded as `Int` seconds (Python ints), counts and limits as `Nat`
(`max(0, limit - count)` coincides with truncated `Nat` subtraction), byte
strings as `List Nat` of values `< 256`, and the mutable
`rate_limit_store` dict as a total function `String → List Int` defaulting to
`[]` (which absorbs the `if api_key not in rate_limit_store` initialisation).
Uncaught Python exceptions are embedded as `none`: the unguarded
`rate_limit_store[api_key][0]` indexing in the rejection branch
(`IndexError`) and `hmac.compare_digest` on a non-ASCII `str` operand
(`TypeError`), so both error paths are provable statements rather than
assumptions.
-/

namespace AuthGate

/-- Per-key metadata record, the value type of the `API_KEYS` dict in
`src/app/auth.py`. -/
structure KeyRecord where
  name : String
  tier : String
  rate_limit : Nat
  secret : String
deriving DecidableEq, Repr

/-- The in-memory key registry `API_KEYS` of `src/app/auth.py`, as an
association list in the dict's insertion order. -/
def API_KEYS : List (String × KeyRecord) :=
  [("test-api-key-12345",
     { name := "Test Client", tier := "free", rate_limit := 100,
       secret := "test-secret-key-67890" }),
   ("prod-api-key-abcde",
     { name := "Production Client", tier := "premium", rate_limit := 1000,
       secret := "prod-secret-key-xyz123" })]

/-- `get_api_key_info`: `API_KEYS.get(api_key)` — a pure dict read returning
`None` (here `none`) for unknown keys. -/
def get_api_key_info (api_key : String) : Option KeyRecord :=
  (API_KEYS.find? (fun p => p.1 == api_key)).map (fun p => p.2)

/-- Result triple `(allowed, remaining, reset_time)` of `check_rate_limit`. -/
structure RLResult where
  allowed : Bool
  remaining : Nat
  reset : Int
deriving DecidableEq, Repr

/-- The pruning comprehension of `check_rate_limit`: keep timestamps with
`ts > now - 60` (`window_start = now - 60`). -/
def prune (now : Int) (w : List Int) : List Int :=
  w.filter (fun ts => decide (now - 60 < ts))

/-- Core of `check_rate_limit` on one key's window `w`: prune, then either
reject (`current_count >= limit`) with `reset = pruned[0] + 60` — `none` when
that indexes an empty list, which is Python's `IndexError` — or append `now`
and admit with `remaining = max(0, limit - current_count)` computed before the
append, and `reset = now + 60`. Returns the result and the key's new window. -/
def rate_check (limit : Nat) (now : Int) (w : List Int) :
    Option (RLResult × List Int) :=
  if limit ≤ (prune now w).length then
    match prune now w with
    | [] => none
    | t :: ts => some (⟨false, 0, t + 60⟩, t :: ts)
  else
    some (⟨true, limit - (prune now w).length, now + 60⟩, prune now w ++ [now])

/-- The mutable `rate_limit_store` dict: per-key timestamp lists, empty by
default. -/
def Store : Type := String → List Int

/-- The initial empty `rate_limit_store = {}`. -/
def Store.empty : Store := fun _ => []

/-- Dict assignment `rate_limit_store[api_key] = w`. -/
def Store.set (s : Store) (api_key : String) (w : List Int) : Store :=
  fun k => if k == api_key then w else s k

/-- `check_rate_limit(api_key)`: unknown keys get `(False, 0, 0)` with the
store untouched; known keys run `rate_check` on their window at the key's
configured limit and write the new window back. `none` on the `IndexError`
path of `rate_check`. -/
def check_rate_limit (store : Store) (api_key : String) (now : Int) :
    Option (RLResult × Store) :=
  match get_api_key_info api_key with
  | none => some (⟨false, 0, 0⟩, store)
  | some key_info =>
      match rate_check key_info.rate_limit now (store api_key) with
      | none => none
      | some (r, w) => some (r, Store.set store api_key w)

/-! ## SHA-256, HMAC and hex encoding

`validate_signature` calls Python's `hmac.new(secret, msg, hashlib.sha256)
.hexdigest()` and compares with `hmac.compare_digest`. The primitives are
embedded concretely (FIPS 180-4 SHA-256 over byte lists, RFC 2104 HMAC with
64-byte block size) so that the expected-signature computation is executable.
Bytes are `Nat` values `< 256`; 32-bit words are `Nat` reduced `% 2 ^ 32`. -/

/-- `2 ^ 32`, the word modulus of SHA-256. -/
def M32 : Nat := 4294967296

/-- 32-bit addition. -/
def add32 (a b : Nat) : Nat := (a + b) % M32

/-- 32-bit right rotation of a word `x < 2 ^ 32`. -/
def rotr32 (n x : Nat) : Nat := ((x >>> n) ||| (x <<< (32 - n))) % M32

/-- SHA-256 `Ch(x, y, z)`; bitwise not is xor with `2 ^ 32 - 1`. -/
def shaCh (x y z : Nat) : Nat := (x &&& y) ^^^ ((x ^^^ 4294967295) &&& z)

/-- SHA-256 `Maj(x, y, z)`. -/
def shaMaj (x y z : Nat) : Nat := (x &&& y) ^^^ (x &&& z) ^^^ (y &&& z)

/-- SHA-256 `Σ0`. -/
def bigSigma0 (x : Nat) : Nat := rotr32 2 x ^^^ rotr32 13 x ^^^ rotr32 22 x

/-- SHA-256 `Σ1`. -/
def bigSigma1 (x : Nat) : Nat := rotr32 6 x ^^^ rotr32 11 x ^^^ rotr32 25 x

/-- SHA-256 `σ0`. -/
def smallSigma0 (x : Nat) : Nat := rotr32 7 x ^^^ rotr32 18 x ^^^ (x >>> 3)

/-- SHA-256 `σ1`. -/
def smallSigma1 (x : Nat) : Nat := rotr32 17 x ^^^ rotr32 19 x ^^^ (x >>> 10)

/-- The 64 SHA-256 round constants, in decimal (the fractional parts of the
cube roots of the first 64 primes, FIPS 180-4 §4.2.2). -/
def K256 : List Nat :=
  [1116352408, 1899447441, 3049323471, 3921009573, 961987163,
   1508970993, 2453635748, 2870763221, 3624381080, 310598401,
   607225278, 1426881987, 1925078388, 2162078206, 2614888103,
   3248222580, 3835390401, 4022224774, 264347078, 604807628,
   770255983, 1249150122, 1555081692, 1996064986, 2554220882,
   2821834349, 2952996808, 3210313671, 3336571891, 3584528711,
   113926993, 338241895, 666307205, 773529912, 1294757372,
   1396182291, 1695183700, 1986661051, 2177026350, 2456956037,
   2730485921, 2820302411, 3259730800, 3345764771, 3516065817,
   3600352804, 4094571909, 275423344, 430227734, 506948616,
   659060556, 883997877, 958139571, 1322822218, 1537002063,
   1747873779, 1955562222, 2024104815, 2227730452, 2361852424,
   2428436474, 2756734187, 3204031479, 3329325298]

/-- The SHA-256 initial hash value, in decimal (FIPS 180-4 §5.3.3). -/
def H256 : List Nat :=
  [1779033703, 3144134277, 1013904242, 2773480762,
   1359893119, 2600822924, 528734635, 1541459225]

/-- Big-endian byte expansion of `v` on `k` bytes. -/
def beBytes (k : Nat) (v : Nat) : List Nat :=
  (List.range k).map (fun i => (v >>> (8 * (k - 1 - i))) % 256)

/-- The 16 big-endian 32-bit words of one 64-byte block. -/
def blockWords (b : List Nat) : List Nat :=
  (List.range 16).map (fun i =>
    (b.getD (4 * i) 0) <<< 24 ||| (b.getD (4 * i + 1) 0) <<< 16 |||
    (b.getD (4 * i + 2) 0) <<< 8 ||| b.getD (4 * i + 3) 0)

/-- Message-schedule extension: push `n` further words onto `w`. -/
def extendW : Nat → Array Nat → Array Nat
  | 0, w => w
  | n + 1, w =>
      let i := w.size
      extendW n (w.push
        (add32 (add32 (smallSigma1 (w.getD (i - 2) 0)) (w.getD (i - 7) 0))
          (add32 (smallSigma0 (w.getD (i - 15) 0)) (w.getD (i - 16) 0))))

/-- One SHA-256 compression round on the eight-word working state. -/
def shaRound (k w : Nat) : List Nat → List Nat
  | [a, b, c, d, e, f, g, h] =>
      let t1 := add32 h (add32 (bigSigma1 e) (add32 (shaCh e f g) (add32 k w)))
      let t2 := add32 (bigSigma0 a) (shaMaj a b c)
      [add32 t1 t2, a, b, c, add32 d t1, e, f, g]
  | st => st

/-- SHA-256 compression of one 64-byte block into the chaining value `h`. -/
def compressBlock (h : List Nat) (block : List Nat) : List Nat :=
  let w := (extendW 48 (Array.mk (blockWords block))).toList
  let st := (K256.zip w).foldl (fun s kw => shaRound kw.1 kw.2 s) h
  (h.zip st).map (fun p => add32 p.1 p.2)

/-- Split a byte list into 64-byte chunks; structural recursion on a fuel
bound so the kernel can reduce it (`chunk64 l.length l` chunks all of `l`,
since every step consumes a nonempty prefix). -/
def chunk64 : Nat → List Nat → List (List Nat)
  | _, [] => []
  | 0, _ => []
  | fuel + 1, l => l.take 64 :: chunk64 fuel (l.drop 64)

/-- FIPS 180-4 padding: append `0x80`, zeros to 56 mod 64, and the bit length
on 8 big-endian bytes. -/
def sha256Pad (msg : List Nat) : List Nat :=
  msg ++ [128] ++ List.replicate ((56 + 64 - (msg.length + 1) % 64) % 64) 0 ++
    beBytes 8 (8 * msg.length)

/-- SHA-256 digest (32 bytes) of a byte list. -/
def sha256 (msg : List Nat) : List Nat :=
  ((chunk64 (sha256Pad msg).length (sha256Pad msg)).foldl compressBlock
    H256).flatMap (beBytes 4)

/-- RFC 2104 HMAC-SHA256 digest (32 bytes): keys longer than the 64-byte block
are first hashed, shorter ones zero-padded. -/
def hmacSha256 (key msg : List Nat) : List Nat :=
  let k0 := if 64 < key.length then sha256 key else key
  let kp := k0 ++ List.replicate (64 - k0.length) 0
  sha256 ((kp.map (fun b => b ^^^ 92)) ++ sha256 ((kp.map (fun b => b ^^^ 54)) ++ msg))

/-- One lowercase hex digit. -/
def hexDigit (n : Nat) : Char :=
  if n < 10 then Char.ofNat (48 + n) else Char.ofNat (87 + n)

/-- `.hexdigest()`: lowercase hex of a byte list. -/
def hexOfBytes (bs : List Nat) : String :=
  String.mk (bs.flatMap (fun b => [hexDigit (b / 16 % 16), hexDigit (b % 16)]))

/-- UTF-8 encoding of one character (`str.encode('utf-8')` per code point). -/
def utf8Char (c : Char) : List Nat :=
  let n := c.toNat
  if n < 128 then [n]
  else if n < 2048 then [192 + n / 64, 128 + n % 64]
  else if n < 65536 then [224 + n / 4096, 128 + n / 64 % 64, 128 + n % 64]
  else [240 + n / 262144, 128 + n / 4096 % 64, 128 + n / 64 % 64, 128 + n % 64]

/-- `str.encode('utf-8')` over a whole string. -/
def utf8 (s : String) : List Nat := s.data.flatMap utf8Char

/-- The expected signature of `validate_signature`:
`hmac.new(secret.encode(), (timestamp + body).encode(), sha256).hexdigest()`. -/
def hmacSha256Hex (secret message : String) : String :=
  hexOfBytes (hmacSha256 (utf8 secret) (utf8 message))

/-- `hmac.compare_digest(a, b)` on `str` operands: raises `TypeError`
(`none`) when either operand contains a non-ASCII character; otherwise a
constant-time comparison, extensionally string equality. -/
def compare_digest (a b : String) : Option Bool :=
  if (a.data.all fun c => decide (c.toNat < 128)) &&
      (b.data.all fun c => decide (c.toNat < 128)) then
    some (a == b)
  else none

/-- `validate_signature(api_key, signature, timestamp, body)`: unknown key
gives `False`; otherwise `hmac.compare_digest` of the supplied signature
with the expected hex digest — `none` is the uncaught `TypeError` on a
non-ASCII signature. -/
def validate_signature (api_key signature timestamp body : String) :
    Option Bool :=
  match get_api_key_info api_key with
  | none => some false
  | some key_info =>
      compare_digest signature (hmacSha256Hex key_info.secret (timestamp ++ body))

/-! ## The decorator `require_api_key`

The Flask decorator is embedded as a pure function of the request headers,
the handler's behaviour (status and headers it would return), the store and
the current time, producing the decision (status, error string from the JSON
body, response headers) and the resulting store. The several `time.time()`
calls of one request are embedded as a single `now`, and the audit `print`
has no observable effect in this model. -/

/-- `Py_UNICODE_ISSPACE`: the code points CPython's `str.isspace` (and hence
`int()`'s whitespace transform) accepts, enumerated from CPython 3.11. -/
def pySpace (c : Char) : Bool :=
  ([9, 10, 11, 12, 13, 28, 29, 30, 31, 32, 133, 160, 5760,
    8192, 8193, 8194, 8195, 8196, 8197, 8198, 8199, 8200, 8201, 8202,
    8232, 8233, 8239, 8287, 12288] : List Nat).contains c.toNat

/-- The zero-digit code point of every contiguous block of ten Unicode
decimal digits (category `Nd`), enumerated from CPython 3.11's
`unicodedata`; `c` is a decimal digit of value `d` exactly when some block
start `s` has `c = s + d`. -/
def ndStarts : List Nat :=
  [48, 1632, 1776, 1984, 2406, 2534, 2662, 2790,
   2918, 3046, 3174, 3302, 3430, 3558, 3664, 3792,
   3872, 4160, 4240, 6112, 6160, 6470, 6608, 6784,
   6800, 6992, 7088, 7232, 7248, 42528, 43216, 43264,
   43472, 43504, 43600, 44016, 65296, 66720, 68912, 69734,
   69872, 69942, 70096, 70384, 70736, 70864, 71248, 71360,
   71472, 71904, 72016, 72784, 73040, 73120, 92768, 92864,
   93008, 120782, 120792, 120802, 120812, 120822, 123200, 123632,
   125264, 130032]

/-- `Py_UNICODE_TODECIMAL`: the decimal value of a Unicode decimal digit. -/
def pyDigitVal (c : Char) : Option Nat :=
  (ndStarts.find? (fun s => s ≤ c.toNat && c.toNat < s + 10)).map
    (fun s => c.toNat - s)

/-- `_PyUnicode_TransformDecimalAndSpaceToASCII`, the first step of `int()`
on a `str`: Unicode decimal digits become the corresponding ASCII digit and
Unicode whitespace becomes a space; everything else is left for the parser
to reject. -/
def pyToAscii (c : Char) : Char :=
  if pySpace c then ' '
  else
    match pyDigitVal c with
    | some d => Char.ofNat (48 + d)
    | none => c

/-- Strip the (already transformed) spaces from both ends, as
`_PyLong_FromString` skips leading and trailing whitespace. -/
def pyStrip (l : List Char) : List Char :=
  ((l.dropWhile (fun c => c == ' ')).reverse.dropWhile (fun c => c == ' ')).reverse

/-- Digit scanner of `_PyLong_FromString` after the first digit: accumulate
ASCII digits, allowing a single underscore separator only between two
digits (`1_000` parses, `1__0`, `1_` and `_1` do not). -/
def pduGo (acc : Nat) : List Char → Option Nat
  | [] => some acc
  | '_' :: c :: rest =>
      if c.isDigit then pduGo (10 * acc + (c.toNat - 48)) rest else none
  | ['_'] => none
  | c :: rest =>
      if c.isDigit then pduGo (10 * acc + (c.toNat - 48)) rest else none

/-- A nonempty digit run with underscore separators: must start and end on a
digit. -/
def parseDigitsU : List Char → Option Nat
  | [] => none
  | c :: rest => if c.isDigit then pduGo (c.toNat - 48) rest else none

/-- `int(s)` on a header string: transform Unicode digits and whitespace to
ASCII, strip surrounding whitespace, then an optional sign directly followed
by digits with optional single underscore separators; anything else raises
`ValueError` (`none`). -/
def parseIntPy (s : String) : Option Int :=
  match pyStrip (s.data.map pyToAscii) with
  | '-' :: rest => (parseDigitsU rest).map (fun n => -(n : Int))
  | '+' :: rest => (parseDigitsU rest).map (fun n => (n : Int))
  | l => (parseDigitsU l).map (fun n => (n : Int))

/-- The headers the gate consumes: `X-API-Key`, `X-Signature`, `X-Timestamp`
(`none` when absent) and the raw request body. -/
structure Request where
  api_key : Option String
  signature : Option String
  timestamp : Option String
  body : String

/-- Python truthiness test `if not header:` on a header value — truthy
absence: missing header or empty string. -/
def falsy (h : Option String) : Bool :=
  match h with
  | none => true
  | some s => s == ""

/-- The gate's observable decision: HTTP status, the `error` field of the JSON
body (`""` on the admitted path, whose body comes from the handler), and the
response headers. -/
structure GateResult where
  status : Nat
  error : String
  headers : List (String × String)
deriving DecidableEq, Repr

/-- Dict assignment `headers[k] = v` on a header list: update in place if the
name is present, otherwise append. -/
def setHeader (hs : List (String × String)) (k v : String) :
    List (String × String) :=
  if hs.any (fun p => p.1 == k) then hs.map (fun p => if p.1 == k then (k, v) else p)
  else hs ++ [(k, v)]

/-- The admitted path's tail: the handler's `(data, status, headers)` with the
three rate-limit headers written into the header dict. -/
def admitResult (key_info : KeyRecord) (remaining : Nat) (reset : Int)
    (handler_status : Nat) (handler_headers : List (String × String)) : GateResult :=
  ⟨handler_status, "",
    setHeader (setHeader (setHeader handler_headers
        "X-RateLimit-Limit" (toString key_info.rate_limit))
      "X-RateLimit-Remaining" (toString remaining))
      "X-RateLimit-Reset" (toString reset)⟩

/-- The decorator `require_api_key(check_signature)` applied to one request:
missing key → 401; unknown key → 401; rate check not allowed → 429 with the
rate-limit headers and `Retry-After`; on signature-protected routes then
missing signature/timestamp → 401, unparseable timestamp → 400, timestamp
out of the ±300 s window → 401, signature mismatch → 401; otherwise the
handler runs and the rate-limit headers are added to its response. `none` is
an uncaught Python exception: the `IndexError` escape of `check_rate_limit`
or the `TypeError` escape of `validate_signature`. -/
def require_api_key (check_signature : Bool) (handler_status : Nat)
    (handler_headers : List (String × String)) (req : Request) (store : Store)
    (now : Int) : Option (GateResult × Store) :=
  if falsy req.api_key then some (⟨401, "Missing API key", []⟩, store)
  else
    match get_api_key_info (req.api_key.getD "") with
    | none => some (⟨401, "Invalid API key", []⟩, store)
    | some key_info =>
        match check_rate_limit store (req.api_key.getD "") now with
        | none => none
        | some (res, store1) =>
            if res.allowed then
              if check_signature ∧ (falsy req.signature ∨ falsy req.timestamp) then
                some (⟨401, "Missing signature", []⟩, store1)
              else if check_signature then
                match parseIntPy (req.timestamp.getD "") with
                | none => some (⟨400, "Invalid timestamp", []⟩, store1)
                | some req_time =>
                    if 300 < (now - req_time).natAbs then
                      some (⟨401, "Request expired", []⟩, store1)
                    else
                      match validate_signature (req.api_key.getD "")
                          (req.signature.getD "") (req.timestamp.getD "") req.body with
                      | none => none
                      | some false => some (⟨401, "Invalid signature", []⟩, store1)
                      | some true =>
                          some (admitResult key_info res.remaining res.reset
                            handler_status handler_headers, store1)
              else
                some (admitResult key_info res.remaining res.reset
                  handler_status handler_headers, store1)
            else
              some (⟨429, "Rate limit exceeded",
                [("X-RateLimit-Limit", toString key_info.rate_limit),
                 ("X-RateLimit-Remaining", "0"),
                 ("X-RateLimit-Reset", toString res.reset),
                 ("Retry-After", toString (res.reset - now))]⟩, store1)

/-! ## Rate-limiter lemmas -/

/-- Everything the pruning comprehension keeps is inside the trailing
60-second window. -/
lemma mem_prune {now x : Int} {w : List Int} (hx : x ∈ prune now w) :
    now - 60 < x := by
  simp only [prune, List.mem_filter, decide_eq_true_eq] at hx
  exact hx.2

/-- Pruning never lengthens the window. -/
lemma prune_length_le (now : Int) (w : List Int) :
    (prune now w).length ≤ w.length :=
  List.length_filter_le _ _

/-- Admission branch of `rate_check`: below the limit, `now` is appended and
`remaining = limit - current_count` is reported, with `reset = now + 60`. -/
lemma rate_check_under_limit {limit : Nat} {now : Int} {w : List Int}
    (h : (prune now w).length < limit) :
    rate_check limit now w =
      some (⟨true, limit - (prune now w).length, now + 60⟩, prune now w ++ [now]) := by
  simp only [rate_check]
  rw [if_neg (by omega)]

/-- Rejection branch of `rate_check`: at or above the limit, the attempt is
not recorded and `reset = pruned[0] + 60`. -/
lemma rate_check_reject {limit : Nat} {now t : Int} {w ts : List Int}
    (hpr : prune now w = t :: ts) (hcnt : limit ≤ (t :: ts).length) :
    rate_check limit now w = some (⟨false, 0, t + 60⟩, t :: ts) := by
  simp only [rate_check, hpr]
  rw [if_pos hcnt]

/-- With a positive limit, `rate_check` never reaches the `IndexError`
branch. -/
lemma rate_check_isSome {limit : Nat} {now : Int} {w : List Int}
    (hl : 1 ≤ limit) : (rate_check limit now w).isSome = true := by
  rcases hpr : prune now w with _ | ⟨t, ts⟩
  · rw [rate_check_under_limit (by rw [hpr]; simpa using hl)]
    rfl
  · by_cases hc : limit ≤ (t :: ts).length
    · rw [rate_check_reject hpr hc]
      rfl
    · rw [rate_check_under_limit (by rw [hpr]; omega)]
      rfl

/-- `rate_check` preserves the bound `limit` on the stored window length. -/
lemma rate_check_post_length {limit : Nat} {now : Int} {w w' : List Int}
    {r : RLResult} (h : rate_check limit now w = some (r, w'))
    (hw : w.length ≤ limit) : w'.length ≤ limit := by
  by_cases hc : limit ≤ (prune now w).length
  · rcases hpr : prune now w with _ | ⟨t, ts⟩
    · rw [hpr] at hc
      simp only [rate_check, hpr, if_pos hc] at h
      exact absurd h (by simp)
    · rw [rate_check_reject hpr (hpr ▸ hc)] at h
      injection h with h1
      injection h1 with _ h2
      rw [← h2, ← hpr]
      exact le_trans (prune_length_le now w) hw
  · rw [rate_check_under_limit (by omega)] at h
    injection h with h1
    injection h1 with _ h2
    rw [← h2]
    simp only [List.length_append, List.length_cons, List.length_nil]
    omega

/-- An admitted `rate_check` call produced exactly the pruned window with
`now` appended, and reported `remaining` from the pre-append count. -/
lemma rate_check_allowed {limit : Nat} {now : Int} {w w' : List Int}
    {r : RLResult} (h : rate_check limit now w = some (r, w'))
    (ha : r.allowed = true) :
    w' = prune now w ++ [now] ∧
    r = ⟨true, limit - (prune now w).length, now + 60⟩ := by
  by_cases hc : limit ≤ (prune now w).length
  · rcases hpr : prune now w with _ | ⟨t, ts⟩
    · rw [hpr] at hc
      simp only [rate_check, hpr, if_pos hc] at h
      exact absurd h (by simp)
    · rw [rate_check_reject hpr (hpr ▸ hc)] at h
      injection h with h1
      injection h1 with h2 _
      rw [← h2] at ha
      simp at ha
  · rw [rate_check_under_limit (by omega)] at h
    injection h with h1
    injection h1 with h2 h3
    exact ⟨h3.symm, h2.symm⟩

/-- A rejected `rate_check` call reported `(False, 0, pruned[0] + 60)` and
stored exactly the pruned window. -/
lemma rate_check_rejected {limit : Nat} {now : Int} {w w' : List Int}
    {r : RLResult} (h : rate_check limit now w = some (r, w'))
    (hc : limit ≤ (prune now w).length) :
    r = ⟨false, 0, (prune now w).headI + 60⟩ ∧ w' = prune now w := by
  rcases hq : prune now w with _ | ⟨t, ts⟩
  · rw [hq] at hc
    simp only [rate_check, hq, if_pos hc] at h
    exact absurd h (by simp)
  · rw [rate_check_reject hq (hq ▸ hc)] at h
    injection h with h1
    injection h1 with h2 h3
    exact ⟨h2.symm, h3.symm⟩

/-- The window states reachable for one key by repeated `rate_check` calls at
a fixed configured limit, starting from the absent/empty entry. -/
inductive Reaches (limit : Nat) : List Int → Prop
  | init : Reaches limit []
  | step (now : Int) (w : List Int) (r : RLResult) (w' : List Int) :
      Reaches limit w → rate_check limit now w = some (r, w') →
      Reaches limit w'

/-- Every reachable window holds at most `limit` timestamps. -/
lemma Reaches.length_le {limit : Nat} {w : List Int} (h : Reaches limit w) :
    w.length ≤ limit := by
  induction h with
  | init => simp
  | step now w r w' hw hstep ih => exact rate_check_post_length hstep ih

/-! ## Claim theorems: rate limiter -/

/-- C1 counterexample: with limit 2 and empty history, the first admitted
check at `t = 0` reports `remaining = 2` — `limit` minus the count *before*
the append — whereas the claim's `remaining = limit - new_count` would be
`2 - 1 = 1`. -/
theorem C1_counterexample :
    rate_check 2 0 [] = some (⟨true, 2, 60⟩, [0]) ∧ (2 : Nat) ≠ 2 - 1 := by
  constructor
  · decide
  · decide

/-- C1 amended: when the pruned count is below the limit the check appends
`now` and admits, but reports `remaining = limit - old_count`, the count
before the append (equivalently `limit - (new_count - 1)`), with
`resetAt = now + 60`. -/
theorem C1_admit_remaining (limit : Nat) (now : Int) (w : List Int)
    (h : (prune now w).length < limit) :
    rate_check limit now w =
      some (⟨true, limit - (prune now w).length, now + 60⟩, prune now w ++ [now]) ∧
    limit - (prune now w).length = limit - ((prune now w ++ [now]).length - 1) := by
  refine ⟨rate_check_under_limit h, ?_⟩
  simp

/-- C1 witness: limit 2, empty history, two admits at `t = 0` and `t = 10`
report `remaining` 2 then 1 (the code's pre-append accounting). -/
theorem C1_admit_remaining_witness :
    (rate_check 2 10 [0] =
      some (⟨true, 2 - (prune 10 [0]).length, 10 + 60⟩, prune 10 [0] ++ [10]) ∧
     2 - (prune 10 [0]).length = 2 - ((prune 10 [0] ++ [10]).length - 1)) ∧
    rate_check 2 0 [] =
      some (⟨true, 2 - (prune 0 []).length, 0 + 60⟩, prune 0 [] ++ [0]) :=
  ⟨C1_admit_remaining 2 10 [0] (by decide),
   (C1_admit_remaining 2 0 [] (by decide)).1⟩

/-- C2: on a reachable window already holding at least `limit` fresh
timestamps, the check rejects with `resetAt = oldest_retained + 60` and the
key's stored sequence is left literally unchanged (rejection forces the whole
stored window to be fresh, so pruning removes nothing and nothing is
recorded); and for a full window `t :: rest` of exactly `limit` entries, once
the oldest entry `t` has aged past 60 s while the rest are still fresh,
exactly one slot is free: the next check admits with `remaining = 1` and
fills the window back to `limit`. -/
theorem C2_reject_and_one_slot (limit : Nat) (now now2 : Int) (w : List Int)
    (t : Int) (rest : List Int)
    (hl : 1 ≤ limit)
    (hreach : Reaches limit w)
    (hcnt : limit ≤ (prune now w).length)
    (hfull : (t :: rest).length = limit)
    (haged : t ≤ now2 - 60)
    (hfresh : (rest.all fun x => decide (now2 - 60 < x)) = true) :
    prune now w = w ∧
    rate_check limit now w = some (⟨false, 0, w.headI + 60⟩, w) ∧
    rate_check limit now2 (t :: rest) =
      some (⟨true, 1, now2 + 60⟩, rest ++ [now2]) ∧
    (rest ++ [now2]).length = limit := by
  have hle : w.length ≤ limit := hreach.length_le
  have hpw : prune now w = w :=
    (List.filter_sublist w).eq_of_length
      (le_antisymm (prune_length_le now w) (le_trans hle hcnt))
  have hrest : prune now2 (t :: rest) = rest := by
    simp only [prune, List.filter_cons]
    rw [if_neg (by simp; omega)]
    exact List.filter_eq_self.mpr (by simpa [List.all_eq_true] using hfresh)
  simp only [List.length_cons] at hfull
  refine ⟨hpw, ?_, ?_, ?_⟩
  · rcases hpr : prune now w with _ | ⟨a, as⟩
    · rw [hpr] at hcnt
      simp at hcnt
      omega
    · rw [rate_check_reject hpr (hpr ▸ hcnt)]
      rw [hpw] at hpr
      rw [hpr]
      rfl
  · rw [rate_check_under_limit (by rw [hrest]; omega)]
    rw [hrest]
    have hone : limit - rest.length = 1 := by omega
    rw [hone]
  · simp only [List.length_append, List.length_cons, List.length_nil]
    omega

/-- C2 witness: the spec's scenario — limit 2, reachable window `[0, 10]`
(admits at `t = 0` and `t = 10`): at `t = 20` the check rejects with
`resetAt = 60` leaving `[0, 10]` untouched; at `t = 61` the entry `0` has
aged out and exactly one slot is free again. -/
theorem C2_reject_and_one_slot_witness :
    prune 20 [0, 10] = [0, 10] ∧
    rate_check 2 20 [0, 10] =
      some (⟨false, 0, ([0, 10] : List Int).headI + 60⟩, [0, 10]) ∧
    rate_check 2 61 [0, 10] = some (⟨true, 1, 61 + 60⟩, [10] ++ [61]) ∧
    ([10] ++ [(61 : Int)]).length = 2 :=
  C2_reject_and_one_slot 2 20 61 [0, 10] 0 [10] (by decide)
    (Reaches.step 10 [0] ⟨true, 1, 70⟩ [0, 10]
      (Reaches.step 0 [] ⟨true, 2, 60⟩ [0] Reaches.init (by decide))
      (by decide))
    (by decide) (by decide) (by decide) (by decide)

/-- C4: after any `rate_check` call from a reachable window, every retained
timestamp satisfies `timestamp > now - 60`, the retained count never exceeds
the configured limit, and the call is admitted exactly when the pruned count
was below the limit (so the `(limit+1)`-th attempt inside the window is
rejected). -/
theorem C4_window_invariant (limit : Nat) (now : Int) (w w' : List Int)
    (r : RLResult)
    (hreach : Reaches limit w)
    (h : rate_check limit now w = some (r, w')) :
    (w'.all fun ts => decide (now - 60 < ts)) = true ∧
    w'.length ≤ limit ∧
    r.allowed = decide ((prune now w).length < limit) := by
  have hlen : w'.length ≤ limit := rate_check_post_length h hreach.length_le
  by_cases hc : limit ≤ (prune now w).length
  · obtain ⟨hr, hw⟩ := rate_check_rejected h hc
    refine ⟨?_, hlen, ?_⟩
    · rw [hw]
      simp only [List.all_eq_true, decide_eq_true_eq]
      exact fun x hx => mem_prune hx
    · rw [hr]
      exact (decide_eq_false (not_lt.mpr hc)).symm
  · rw [rate_check_under_limit (by omega)] at h
    injection h with h1
    injection h1 with h2 h3
    refine ⟨?_, hlen, ?_⟩
    · rw [← h3]
      simp only [List.all_append, List.all_eq_true, decide_eq_true_eq,
        Bool.and_eq_true]
      exact ⟨fun x hx => mem_prune hx,
        fun x hx => by simp only [List.mem_singleton] at hx; omega⟩
    · rw [← h2]
      exact (decide_eq_true (by omega)).symm

/-- C4 witness: limit 2 with reachable window `[0]` (one admit at `t = 0`);
the check at `t = 10` keeps only fresh timestamps, stays within the limit,
and admits because the pruned count 1 is below 2. -/
theorem C4_window_invariant_witness :
    (([0, 10] : List Int).all fun ts => decide ((10 : Int) - 60 < ts)) = true ∧
    ([0, 10] : List Int).length ≤ 2 ∧
    (⟨true, 1, 70⟩ : RLResult).allowed = decide ((prune 10 [0]).length < 2) :=
  C4_window_invariant 2 10 [0] [0, 10] ⟨true, 1, 70⟩
    (Reaches.step 0 [] ⟨true, 2, 60⟩ [0] Reaches.init (by decide)) (by decide)

/-- C10: with a configured limit of at least 1 the rejection branch's
unguarded `rate_limit_store[api_key][0]` access is safe (`rate_check` never
returns the `IndexError` marker `none`); every key in the registry satisfies
that precondition; and with limit 0 and an empty window the rejection branch
does index an empty list (`none`). -/
theorem C10_reset_index_safe (limit : Nat) (now : Int) (w : List Int)
    (hl : 1 ≤ limit) :
    (rate_check limit now w).isSome = true ∧
    (API_KEYS.all fun p => decide (1 ≤ p.2.rate_limit)) = true ∧
    rate_check 0 now [] = none := by
  refine ⟨rate_check_isSome hl, by decide, ?_⟩
  rfl

/-- C10 witness: limit 1 on an empty window is safe; the registry limits are
100 and 1000; limit 0 on an empty window crashes. -/
theorem C10_reset_index_safe_witness :
    (rate_check 1 0 []).isSome = true ∧
    (API_KEYS.all fun p => decide (1 ≤ p.2.rate_limit)) = true ∧
    rate_check 0 0 [] = none :=
  C10_reset_index_safe 1 0 [] (by decide)

/-- C9: registry lookup is a pure total function — repeated calls return the
identical result, an unknown key is reported as `none` (never an exception),
and the two registered keys resolve to their fixed records. -/
theorem C9_lookup_pure (k : String) :
    get_api_key_info k = get_api_key_info k ∧
    (get_api_key_info k = none ↔
      (k ≠ "test-api-key-12345" ∧ k ≠ "prod-api-key-abcde")) ∧
    get_api_key_info "test-api-key-12345" =
      some ⟨"Test Client", "free", 100, "test-secret-key-67890"⟩ ∧
    get_api_key_info "prod-api-key-abcde" =
      some ⟨"Production Client", "premium", 1000, "prod-secret-key-xyz123"⟩ := by
  refine ⟨rfl, ?_, rfl, rfl⟩
  by_cases h1 : k = "test-api-key-12345"
  · subst h1
    simp [get_api_key_info, API_KEYS, List.find?]
  · by_cases h2 : k = "prod-api-key-abcde"
    · subst h2
      simp [get_api_key_info, API_KEYS, List.find?]
    · have e1 : ("test-api-key-12345" == k) = false := by
        rw [beq_eq_false_iff_ne]
        exact fun e => h1 e.symm
      have e2 : ("prod-api-key-abcde" == k) = false := by
        rw [beq_eq_false_iff_ne]
        exact fun e => h2 e.symm
      simp [get_api_key_info, API_KEYS, List.find?, e1, e2, h1, h2]

/-! ## Claim theorems: registry, signatures and the gate -/

/-- C5: a present key that is absent from the registry is rejected 401
`Invalid API key` whatever the other headers, body, route mode, handler or
store; and `check_rate_limit` on an unknown key returns
`(False, 0, 0)` leaving the store untouched. -/
theorem C5_unknown_key (cs : Bool) (hS : Nat) (hH : List (String × String))
    (req : Request) (store : Store) (now : Int)
    (hpresent : falsy req.api_key = false)
    (hka : get_api_key_info (req.api_key.getD "") = none) :
    require_api_key cs hS hH req store now =
      some (⟨401, "Invalid API key", []⟩, store) ∧
    check_rate_limit store (req.api_key.getD "") now =
      some (⟨false, 0, 0⟩, store) := by
  constructor
  · simp only [require_api_key, hpresent, hka, Bool.false_eq_true, if_false]
  · simp only [check_rate_limit, hka]

/-- C5 witness: the unknown key `"unknown-key"` with signature headers
supplied is still 401 `Invalid API key`, and its rate check is
`(False, 0, 0)`. -/
theorem C5_unknown_key_witness :
    require_api_key true 200 []
        ⟨some "unknown-key", some "sig", some "123", "body"⟩ Store.empty 0 =
      some (⟨401, "Invalid API key", []⟩, Store.empty) ∧
    check_rate_limit Store.empty
        ((some "unknown-key").getD "") 0 =
      some (⟨false, 0, 0⟩, Store.empty) :=
  C5_unknown_key true 200 [] ⟨some "unknown-key", some "sig", some "123", "body"⟩
    Store.empty 0 (by decide) (by decide)

/-- A hex digest consists of ASCII characters only, so `compare_digest`
never raises on its expected-signature operand. -/
lemma hexOfBytes_ascii (bs : List Nat) :
    ((hexOfBytes bs).data.all fun c => decide (c.toNat < 128)) = true := by
  have hd : ∀ n < 16, (hexDigit n).toNat < 128 := by decide
  simp only [hexOfBytes, List.all_eq_true, decide_eq_true_eq]
  intro c hc
  simp only [List.mem_flatMap, List.mem_cons, List.not_mem_nil, or_false] at hc
  obtain ⟨b, _, hc⟩ := hc
  rcases hc with rfl | rfl
  · exact hd _ (Nat.mod_lt _ (by omega))
  · exact hd _ (Nat.mod_lt _ (by omega))

/-- C8 counterexample: flipping the high bit of the good signature's first
byte (`5`, `0x35`, becomes `0xB5`, which the header layer decodes as `µ`)
does not make verification return failure: `hmac.compare_digest` raises
`TypeError` on the non-ASCII operand (the `none` marker), so the request
errors out instead. -/
theorem C8_counterexample :
    validate_signature "test-api-key-12345"
      "µ71b98475ee638b5d800216497451df6df9f843c17d08d1e7efd79ac3e68b4a5"
      "1000" "hello" = none ∧
    ¬ validate_signature "test-api-key-12345"
      "µ71b98475ee638b5d800216497451df6df9f843c17d08d1e7efd79ac3e68b4a5"
      "1000" "hello" = some false := by
  constructor
  · decide
  · decide

/-- C8 amended: for a registered key, an all-ASCII signature compares
cleanly — verification returns the equality test against the hex
HMAC-SHA256 of `timestamp ++ body` under the key's secret (success exactly
on equality, failure otherwise) — while any signature containing a
non-ASCII character makes `hmac.compare_digest` raise `TypeError`
(`none`) instead of returning. -/
theorem C8_signature_cases (api_key sig sig2 timestamp body : String)
    (key_info : KeyRecord)
    (hk : get_api_key_info api_key = some key_info)
    (hascii : (sig.data.all fun c => decide (c.toNat < 128)) = true)
    (hnon : (sig2.data.all fun c => decide (c.toNat < 128)) = false) :
    validate_signature api_key sig timestamp body =
      some (sig == hmacSha256Hex key_info.secret (timestamp ++ body)) ∧
    validate_signature api_key sig2 timestamp body = none := by
  constructor
  · simp [validate_signature, hk, compare_digest, hascii, hmacSha256Hex,
      hexOfBytes_ascii]
  · simp [validate_signature, hk, compare_digest, hnon]

set_option maxRecDepth 400000 in
/-- C8 witness: for the registered test key, the true HMAC hex of
`"1000" ++ "hello"` verifies (`some true`, kernel-evaluated), and the same
signature with its first byte's high bit flipped raises (`none`). -/
theorem C8_signature_cases_witness :
    (validate_signature "test-api-key-12345"
      "571b98475ee638b5d800216497451df6df9f843c17d08d1e7efd79ac3e68b4a5"
      "1000" "hello" =
      some (("571b98475ee638b5d800216497451df6df9f843c17d08d1e7efd79ac3e68b4a5" : String) ==
        hmacSha256Hex "test-secret-key-67890" ("1000" ++ "hello")) ∧
    validate_signature "test-api-key-12345"
      "µ71b98475ee638b5d800216497451df6df9f843c17d08d1e7efd79ac3e68b4a5"
      "1000" "hello" = none) ∧
    validate_signature "test-api-key-12345"
      "571b98475ee638b5d800216497451df6df9f843c17d08d1e7efd79ac3e68b4a5"
      "1000" "hello" = some true := by
  have h := C8_signature_cases "test-api-key-12345"
    "571b98475ee638b5d800216497451df6df9f843c17d08d1e7efd79ac3e68b4a5"
    "µ71b98475ee638b5d800216497451df6df9f843c17d08d1e7efd79ac3e68b4a5"
    "1000" "hello" ⟨"Test Client", "free", 100, "test-secret-key-67890"⟩
    rfl (by decide) (by decide)
  refine ⟨h, ?_⟩
  rw [h.1]
  decide

/-- Reduction of the gate past the key-presence, key-validity and admitted
rate-limit stages, leaving the signature stage and the handler. -/
lemma gate_admit_stage (cs : Bool) (hS : Nat) (hH : List (String × String))
    (req : Request) (store store1 : Store) (now : Int) (info : KeyRecord)
    (r : RLResult)
    (hpresent : falsy req.api_key = false)
    (hkey : get_api_key_info (req.api_key.getD "") = some info)
    (hrl : check_rate_limit store (req.api_key.getD "") now = some (r, store1))
    (hallowed : r.allowed = true) :
    require_api_key cs hS hH req store now =
      if cs ∧ (falsy req.signature ∨ falsy req.timestamp) then
        some (⟨401, "Missing signature", []⟩, store1)
      else if cs then
        match parseIntPy (req.timestamp.getD "") with
        | none => some (⟨400, "Invalid timestamp", []⟩, store1)
        | some req_time =>
            if 300 < (now - req_time).natAbs then
              some (⟨401, "Request expired", []⟩, store1)
            else
              match validate_signature (req.api_key.getD "") (req.signature.getD "")
                  (req.timestamp.getD "") req.body with
              | none => none
              | some false => some (⟨401, "Invalid signature", []⟩, store1)
              | some true => some (admitResult info r.remaining r.reset hS hH, store1)
      else some (admitResult info r.remaining r.reset hS hH, store1) := by
  simp only [require_api_key, hpresent, hkey, hrl, hallowed, Bool.false_eq_true,
    if_false, if_true]

/-- C6: on a signature-protected route with a valid key and an admitted rate
check, whatever the gate finally returns (any signature rejection included),
the resulting store is the rate-limiter's post-admission store, whose entry
for the key is the pruned window with `now` appended — the slot stays
consumed. -/
theorem C6_slot_consumed (hS : Nat) (hH : List (String × String))
    (req : Request) (store store1 store2 : Store) (now : Int)
    (info : KeyRecord) (r : RLResult) (res : GateResult)
    (hpresent : falsy req.api_key = false)
    (hkey : get_api_key_info (req.api_key.getD "") = some info)
    (hrl : check_rate_limit store (req.api_key.getD "") now = some (r, store1))
    (hallowed : r.allowed = true)
    (hgate : require_api_key true hS hH req store now = some (res, store2)) :
    store2 = store1 ∧
    store1 (req.api_key.getD "") =
      prune now (store (req.api_key.getD "")) ++ [now] := by
  constructor
  · rw [gate_admit_stage true hS hH req store store1 now info r hpresent hkey
      hrl hallowed] at hgate
    repeat' split at hgate
    all_goals
      first
      | exact Option.noConfusion hgate
      | (injection hgate with h1
         injection h1 with _ hb
         exact hb.symm)
  · simp only [check_rate_limit, hkey] at hrl
    rcases hrc : rate_check info.rate_limit now (store (req.api_key.getD ""))
      with _ | ⟨r1, w⟩
    · rw [hrc] at hrl
      exact absurd hrl (by simp)
    · rw [hrc] at hrl
      injection hrl with h1
      injection h1 with ha hb
      obtain ⟨hw, _⟩ := rate_check_allowed hrc (ha ▸ hallowed)
      rw [← hb, Store.set]
      rw [if_pos (beq_self_eq_true _)]
      exact hw

/-- C6 witness: the test key at `t = 0` with quota free but no signature
headers is rejected 401 `Missing signature`, yet the store keeps the appended
timestamp `0` for the key. -/
theorem C6_slot_consumed_witness :
    Store.set Store.empty "test-api-key-12345" [0] = Store.set Store.empty "test-api-key-12345" [0] ∧
    Store.set Store.empty "test-api-key-12345" [0] ((some "test-api-key-12345").getD "") =
      prune 0 (Store.empty ((some "test-api-key-12345").getD "")) ++ [0] :=
  C6_slot_consumed 200 [] ⟨some "test-api-key-12345", none, none, ""⟩
    Store.empty (Store.set Store.empty "test-api-key-12345" [0])
    (Store.set Store.empty "test-api-key-12345" [0]) 0
    ⟨"Test Client", "free", 100, "test-secret-key-67890"⟩ ⟨true, 100, 60⟩
    ⟨401, "Missing signature", []⟩ rfl rfl rfl rfl rfl

/-- C7 counterexample: a signature-protected request with a registered key
and free quota but no signature headers is answered 401 `Missing signature`
with an empty header list — the `X-RateLimit-*` headers the claim promises on
every post-lookup decision are absent. -/
theorem C7_counterexample :
    (require_api_key true 200 [] ⟨some "test-api-key-12345", none, none, ""⟩
        Store.empty 0).map (fun p => p.1) =
      some ⟨401, "Missing signature", []⟩ ∧
    ¬ ((require_api_key true 200 [] ⟨some "test-api-key-12345", none, none, ""⟩
        Store.empty 0).map
          (fun p => p.1.headers.any fun q => q.1 == "X-RateLimit-Limit") =
        some true) := by
  constructor
  · decide
  · decide

/-- C7 amended: after a successful key lookup, the three `X-RateLimit-*`
headers are carried by the 429 rate-limited response and by the admitted
response (status 200 with a bare handler), but not by the signature-related
rejections (400/401), and `Retry-After` appears exactly on the 429. -/
theorem C7_headers (cs : Bool) (req : Request)
    (store store1 store2 : Store) (now : Int)
    (info : KeyRecord) (r : RLResult) (res : GateResult)
    (hpresent : falsy req.api_key = false)
    (hkey : get_api_key_info (req.api_key.getD "") = some info)
    (hrl : check_rate_limit store (req.api_key.getD "") now = some (r, store1))
    (hgate : require_api_key cs 200 [] req store now = some (res, store2)) :
    ((res.headers.any fun p => p.1 == "Retry-After") = true ↔
      res.status = 429) ∧
    ((res.headers.any fun p => p.1 == "X-RateLimit-Limit") = true ↔
      (res.status = 429 ∨ res.status = 200)) ∧
    ((res.headers.any fun p => p.1 == "X-RateLimit-Remaining") = true ↔
      (res.status = 429 ∨ res.status = 200)) ∧
    ((res.headers.any fun p => p.1 == "X-RateLimit-Reset") = true ↔
      (res.status = 429 ∨ res.status = 200)) := by
  simp only [require_api_key, hpresent, hkey, hrl, Bool.false_eq_true,
    if_false] at hgate
  by_cases hal : r.allowed = true
  · rw [if_pos hal] at hgate
    repeat' split at hgate
    all_goals
      first
      | exact Option.noConfusion hgate
      | (injection hgate with h1
         injection h1 with ha _
         subst ha
         simp [admitResult, setHeader])
  · rw [if_neg hal] at hgate
    injection hgate with h1
    injection h1 with ha _
    subst ha
    simp

/-- C7 amended witness: the same missing-signature request — status 401,
no rate-limit headers, no `Retry-After`. -/
theorem C7_headers_witness :
    (((⟨401, "Missing signature", []⟩ : GateResult).headers.any
        fun p => p.1 == "Retry-After") = true ↔
      (⟨401, "Missing signature", []⟩ : GateResult).status = 429) ∧
    (((⟨401, "Missing signature", []⟩ : GateResult).headers.any
        fun p => p.1 == "X-RateLimit-Limit") = true ↔
      ((⟨401, "Missing signature", []⟩ : GateResult).status = 429 ∨
        (⟨401, "Missing signature", []⟩ : GateResult).status = 200)) ∧
    (((⟨401, "Missing signature", []⟩ : GateResult).headers.any
        fun p => p.1 == "X-RateLimit-Remaining") = true ↔
      ((⟨401, "Missing signature", []⟩ : GateResult).status = 429 ∨
        (⟨401, "Missing signature", []⟩ : GateResult).status = 200)) ∧
    (((⟨401, "Missing signature", []⟩ : GateResult).headers.any
        fun p => p.1 == "X-RateLimit-Reset") = true ↔
      ((⟨401, "Missing signature", []⟩ : GateResult).status = 429 ∨
        (⟨401, "Missing signature", []⟩ : GateResult).status = 200)) :=
  C7_headers true ⟨some "test-api-key-12345", none, none, ""⟩
    Store.empty (Store.set Store.empty "test-api-key-12345" [0])
    (Store.set Store.empty "test-api-key-12345" [0]) 0
    ⟨"Test Client", "free", 100, "test-secret-key-67890"⟩ ⟨true, 100, 60⟩
    ⟨401, "Missing signature", []⟩ rfl rfl rfl rfl

/-- FIPS 180-2 test vector: SHA-256 of `"abc"`, checked through the kernel to
validate the embedded hash. -/
theorem sha256_vector_abc :
    hexOfBytes (sha256 (utf8 "abc")) =
      "ba7816bf8f01cfea414140de5dae2223b00361a396177a9cb410ff61f20015ad" := by
  decide

set_option maxRecDepth 400000 in
/-- RFC 4231 test case 2, validating the embedded HMAC construction. -/
theorem hmac_vector_jefe :
    hmacSha256Hex "Jefe" "what do ya want for nothing?" =
      "5bdcc146bf60754e6a042426089575c75a003f089d2739839dec58b964ec3843" := by
  decide

set_option maxRecDepth 400000 in
/-- ASCII single-byte corruption: the good signature with its first hex
digit changed (`5` → `4`) stays comparable and returns failure. -/
theorem validate_corrupt_ascii_fails :
    validate_signature "test-api-key-12345"
      "471b98475ee638b5d800216497451df6df9f843c17d08d1e7efd79ac3e68b4a5"
      "1000" "hello" = some false := by
  decide

end AuthGate

